import Mathlib

/-!
Formal model of the get-resyD background monitor engine.

The definitions below are a shallow embedding of the repository's code:

* `src/monitor_engine.py` — the `MonitorEngine` class: the poll loop
  (`_loop`), the registry operations (`add`, `remove`, `list`,
  `set_active`) and shutdown (`stop`).
* `src/app.py` — the checker `run_check` (lines 105-214) together with the
  webhook dispatch logic of `sendWebhook`.

Conventions of the embedding:

* Timestamps (`time.time()`, `datetime.now()`, `datetime.timestamp()`) are
  modelled as integers; `timestamp()` is the identity on the stored value.
* Python dictionaries holding monitor records are modelled by the structure
  `Item`.  Every record created by the app (app.py lines 315-335) carries
  all keys, so `item.get("active", True)` and friends are modelled by plain
  structure fields.
* The Resy HTTP client and the Discord webhook are external collaborators;
  their observable outcomes (parsed JSON, raised exceptions) are supplied
  by a `CheckEnv` environment.  A call that raises `ResyClientError` and a
  call that raises any other exception are distinguished, because
  `run_check` handles them differently.
* In-place mutation of a record is modelled by state passing: a function
  receives an `Item` and returns the updated `Item`.
-/

/-- A matched slot as built by `run_check` (app.py lines 152-158):
`{"date": ..., "time_24": ..., "type": ..., "time_filter": ..., "image": ...}`. -/
structure Slot where
  date : String
  time_24 : String
  type : String
  time_filter : String
  image : String
deriving DecidableEq

/-- A monitor record, transcribed from the dictionary created in app.py
lines 315-335.  `last_checked` is `None` or a timestamp. -/
structure Item where
  id : String
  venue_id : String
  venue_name : String
  url : String
  party_size : Nat
  start_date : String
  end_date : String
  times_24 : List String
  times_12 : List String
  last_checked : Option Int
  status : String
  status_msg : String
  found_slots : List Slot
  error : Option String
  created_at : Int
  only_one_webhook : Bool
  webhook_sent : Bool
  stop_on_match : Bool
  active : Bool
deriving DecidableEq

/-- monitor_engine.py line 7: `POLL_INTERVAL_SEC = 120`. -/
def POLL_INTERVAL_SEC : Int := 120

/-- monitor_engine.py line 29:
`last_ts = item["last_checked"].timestamp() if item.get("last_checked") else 0`. -/
def lastTs (item : Item) : Int :=
  match item.last_checked with
  | some t => t
  | none => 0

/-- monitor_engine.py line 30: the due test `now - last_ts >= POLL_INTERVAL_SEC`. -/
def isDue (now : Int) (item : Item) : Bool :=
  POLL_INTERVAL_SEC ≤ now - lastTs item

/-- monitor_engine.py lines 37-41: the failure boundary of the poll loop.
On an exception from the checker the loop assigns exactly
`status`, `status_msg`, `error` and `last_checked` on the record. -/
def loopErrorUpdate (item : Item) (e : String) (now : Int) : Item :=
  { item with
    status := "error"
    status_msg := "Background error"
    error := some e
    last_checked := some now }

/-- One iteration step of the poll loop body for a single record
(monitor_engine.py lines 26-41).  The checker may either return the
mutated record (`Except.ok`) or raise; a raise carries the state the
record was left in when the exception was thrown, together with `str(e)`.
The returned `Bool` records whether the checker was invoked on the record
in this scan. -/
def scanItem (checker : Item → Except (String × Item) Item) (now : Int)
    (item : Item) : Item × Bool :=
  if !item.active then
    (item, false)
  else if isDue now item then
    match checker item with
    | Except.ok item2 => (item2, true)
    | Except.error (e, partState) => (loopErrorUpdate partState e now, true)
  else
    (item, false)

/-- One full scan of the poll loop over the snapshot of registry values
(monitor_engine.py lines 24-41): each record is processed in order and the
resulting record states are collected. -/
def scanList (checker : Item → Except (String × Item) Item) (now : Int)
    (items : List Item) : List Item :=
  items.map (fun item => (scanItem checker now item).1)

/-!
The checker `run_check` (app.py lines 105-214).

The Resy client (`client.get_calendar`, `client.find`) and the slot-JSON
extraction performed on its responses are collaborator code whose
observable outcome for one invocation is supplied by a `CheckEnv`.
A collaborator call either returns a parsed value, raises
`ResyClientError`, or raises some other exception (for the calendar
outcome, `exn` also covers an exception raised before or during the
calendar call, e.g. by `strftime`; for a find outcome, `exn` covers an
exception raised while iterating that date's slots, e.g. a `KeyError`
during parsing — only `ResyClientError` is caught by the per-date
handler at app.py lines 159-161).
-/

/-- The data of a `ResyClientError` (resy_client.py lines 7-12):
`str(e)`, `e.status_code`, `e.details.get("text")`, `e.details.get("error")`. -/
structure ResyErr where
  message : String
  status_code : Option Nat
  text : Option String
  errDetail : Option String
deriving DecidableEq

/-- Outcome of one collaborator call: parsed value, `ResyClientError`
(carrying its data), or any other exception (carrying `str(e)`). -/
inductive CallOutcome (α : Type) where
  | ok (val : α)
  | resyErr (e : ResyErr)
  | exn (msg : String)

/-- One entry of `cal.get("scheduled", [])` (app.py lines 119-122): its
`date` and the `inventory.reservation` string. -/
structure CalEntry where
  date : String
  reservation : String
deriving DecidableEq

/-- A slot of `venues[0]["slots"]` for one date, after the extraction of
app.py lines 148-157: the `HH:MM` start time, config type, config time
filter, and the venue image.  An empty `venues` list (app.py line 144) is
modelled by an `ok []` outcome. -/
structure RawSlot where
  time_24 : String
  type : String
  time_filter : String
  image : String
deriving DecidableEq

/-- The environment of one `run_check` invocation: the calendar outcome,
the find outcome for each date, and `datetime.now()` at the end of the
call (the `finally` at app.py line 214). -/
structure CheckEnv where
  calendar : CallOutcome (List CalEntry)
  find : String → CallOutcome (List RawSlot)
  now : Int

/-- Python truthiness chaining `a or b` for optional strings (`None` and
`""` are falsy). -/
def pyOr (a : Option String) (b : String) : String :=
  match a with
  | some s => if s = "" then b else s
  | none => b

/-- app.py line 208: `e.details.get("text") or e.details.get("error") or str(e)`. -/
def resyErrorText (e : ResyErr) : String :=
  pyOr e.text (pyOr e.errDetail e.message)

/-- app.py line 207: `f"API error {e.status_code or ''}".strip()`
(a `None` or `0` status code is falsy, leaving `"API error"` after strip). -/
def apiErrorMsg (e : ResyErr) : String :=
  match e.status_code with
  | some c => if c = 0 then "API error" else "API error " ++ toString c
  | none => "API error"

/-- The result of one `run_check` invocation: the record state at return
and the number of `sendWebhook` dispatches performed during this call. -/
structure RunResult where
  item : Item
  sent : Nat
deriving DecidableEq

/-- app.py lines 205-214: an `except` block of `run_check` followed by the
`finally` assignment of `last_checked`.  Exactly `status`, `status_msg`,
`error` and `last_checked` are assigned. -/
def runCheckError (item : Item) (msg err : String) (now : Int) : Item :=
  { item with
    status := "error"
    status_msg := msg
    error := some err
    last_checked := some now }

/-- app.py lines 190-197 plus the `finally`: the match-found update.
Sets `status`, `status_msg`, `found_slots`, `error`, `last_checked`, and
deactivates the monitor when `stop_on_match` is set (lines 196-197). -/
def runCheckFound (item : Item) (foundMatches : List Slot) (now : Int) : Item :=
  { item with
    status := "found"
    status_msg := "🎉 Found reservations!"
    found_slots := foundMatches
    error := none
    last_checked := some now
    active := if item.stop_on_match then false else item.active }

/-- app.py lines 124-129 and 198-202 plus the `finally`: the no-match
update (with the given `status_msg`). -/
def runCheckNone (item : Item) (msg : String) (now : Int) : Item :=
  { item with
    status := "none"
    status_msg := msg
    found_slots := []
    error := none
    last_checked := some now }

/-- The Python error message of the call `sendWebhook(...)` at app.py line
188, which passes six arguments to the seven-parameter function
`sendWebhook(restaurauntName, date, time_str, partySize, link, type_str,
image)` (app.py line 22) and therefore raises `TypeError` before the
webhook body runs. -/
def sendWebhookMissingImageMsg : String :=
  "sendWebhook() missing 1 required positional argument: image"

/-- app.py lines 132-161: the per-date find loop.  For each available
date, a `ResyClientError` is swallowed (`continue`, lines 159-161), any
other exception propagates to the outer handler aborting the whole match
list, and otherwise the slots whose `HH:MM` time is in `item.times_24`
are appended as matches for that date. -/
def collectMatches (env : CheckEnv) (item : Item) :
    List String → Except String (List Slot)
  | [] => Except.ok []
  | d :: ds =>
    match env.find d with
    | CallOutcome.resyErr _ => collectMatches env item ds
    | CallOutcome.exn m => Except.error m
    | CallOutcome.ok slots =>
      let ms := (slots.filter (fun s => item.times_24.contains s.time_24)).map
        (fun s => Slot.mk d s.time_24 s.type s.time_filter s.image)
      match collectMatches env item ds with
      | Except.ok rest => Except.ok (ms ++ rest)
      | Except.error m => Except.error m

/-- app.py lines 105-214: `run_check`.  Updates the record and returns it
together with the number of webhook dispatches performed in this call. -/
def runCheck (env : CheckEnv) (item : Item) : RunResult :=
  match env.calendar with
  | CallOutcome.resyErr e =>
    -- `except ResyClientError` (lines 205-208)
    ⟨runCheckError item (apiErrorMsg e) (resyErrorText e) env.now, 0⟩
  | CallOutcome.exn m =>
    -- `except Exception` (lines 209-212)
    ⟨runCheckError item "Unexpected error" m env.now, 0⟩
  | CallOutcome.ok scheduled =>
    let availableDates :=
      (scheduled.filter (fun c => c.reservation == "available")).map CalEntry.date
    if availableDates.isEmpty then
      -- lines 124-129: early return on an empty calendar
      ⟨runCheckNone item "Nothing available (calendar)" env.now, 0⟩
    else
      match collectMatches env item availableDates with
      | Except.error m =>
        -- a non-ResyClientError escaping the date loop reaches line 209
        ⟨runCheckError item "Unexpected error" m env.now, 0⟩
      | Except.ok foundMatches =>
        if foundMatches.isEmpty then
          -- lines 198-202
          ⟨runCheckNone item "Nothing available for selected times" env.now, 0⟩
        else if item.only_one_webhook && item.webhook_sent then
          -- lines 165-167: one-time webhook already sent, skip sending
          ⟨runCheckFound item foundMatches env.now, 0⟩
        else if item.only_one_webhook then
          -- lines 169-181: send a single webhook for the first match,
          -- then record `webhook_sent = True`
          ⟨runCheckFound { item with webhook_sent := true } foundMatches env.now, 1⟩
        else
          -- lines 184-188: the per-match send loop calls `sendWebhook`
          -- without the `image` argument, so the first iteration raises
          -- `TypeError`, which is caught at line 209
          ⟨runCheckError item "Unexpected error" sendWebhookMissingImageMsg env.now, 0⟩

/-- A sequence of scheduled `run_check` invocations on one record: the
total number of webhook dispatches over that lifetime. -/
def lifetimeSends : List CheckEnv → Item → Nat
  | [], _ => 0
  | e :: es, item => (runCheck e item).sent + lifetimeSends es (runCheck e item).item

/-!
Object-identity model of the registry (monitor_engine.py lines 45-61).

Python records are mutable dictionary objects and `found_slots` holds a
mutable list object, so aliasing is observable: `list()` returns
`[dict(v) for v in self._monitors.values()]` (line 56) — a fresh, shallow
copy of each record dictionary whose top-level values, including the
`found_slots` list reference, are shared with the stored record.

The model keeps two object stores: `recs` for record objects (addressed
by `Nat`) and `lists` for the list objects held in `found_slots`.  The
registry map `_monitors` maps ids to record addresses in insertion
order.  `fresh` is the next unallocated address.
-/

/-- A record object in the store: the mutable fields the engine and
checker touch, with `found_slots` as a reference to a list object. -/
structure RecObj where
  id : String
  active : Bool
  status : String
  status_msg : String
  error : Option String
  last_checked : Option Int
  found_slots : Nat
deriving DecidableEq

/-- The engine state at the object level: the `_monitors` dict (id to
record-object address, in insertion order), the record-object store, the
slot-list-object store, and the allocation bound. -/
@[ext]
structure EngineB where
  monitors : List (String × Nat)
  recs : Nat → Option RecObj
  lists : Nat → Option (List Slot)
  fresh : Nat

/-- monitor_engine.py lines 49-51: `self._monitors.pop(item_id, None)` —
delete the key if present, no-op otherwise.  The record object itself is
not touched. -/
def removeB (s : EngineB) (id : String) : EngineB :=
  { s with monitors := s.monitors.filter (fun p => p.1 != id) }

/-- monitor_engine.py lines 58-61: `set_active` assigns the `active`
field of the stored record object when the id is present, and is a no-op
otherwise. -/
def set_activeB (s : EngineB) (id : String) (b : Bool) : EngineB :=
  match s.monitors.lookup id with
  | none => s
  | some a =>
    { s with recs := fun n =>
        if n = a then (s.recs n).map (fun r => { r with active := b }) else s.recs n }

/-- monitor_engine.py lines 45-47: `self._monitors[item["id"]] = item` —
the record object is allocated at a fresh address and the key is bound to
it (an existing key keeps its position, a new key is appended, as for a
Python dict). -/
def addB (s : EngineB) (r : RecObj) : EngineB :=
  let a := s.fresh
  let monitors2 :=
    if s.monitors.any (fun p => p.1 == r.id) then
      s.monitors.map (fun p => if p.1 == r.id then (p.1, a) else p)
    else
      s.monitors ++ [(r.id, a)]
  { monitors := monitors2
    recs := fun n => if n = a then some r else s.recs n
    lists := s.lists
    fresh := s.fresh + 1 }

/-- monitor_engine.py line 56, one step: allocate a shallow copy
(`dict(v)`) of each stored record, in registry order.  The copy shares
the `found_slots` list reference with the original.  Returns the state
after the allocations and the addresses of the copies. -/
def copyRecs : List (String × Nat) → EngineB → EngineB × List Nat
  | [], s => (s, [])
  | p :: rest, s =>
    match s.recs p.2 with
    | none => copyRecs rest s
    | some r =>
      let a := s.fresh
      let s2 : EngineB :=
        { s with recs := fun n => if n = a then some r else s.recs n, fresh := s.fresh + 1 }
      let res := copyRecs rest s2
      (res.1, a :: res.2)

/-- monitor_engine.py lines 53-56: `list()` returns
`[dict(v) for v in self._monitors.values()]` — fresh shallow copies of
all current records, taken from one registry state. -/
def listB (s : EngineB) : EngineB × List Nat :=
  copyRecs s.monitors s

/-- Caller-side mutation of a top-level field of a snapshot record
object, e.g. `snap["status"] = v`: updates the record object at `a`. -/
def setStatusAt (s : EngineB) (a : Nat) (v : String) : EngineB :=
  { s with recs := fun n =>
      if n = a then (s.recs n).map (fun r => { r with status := v }) else s.recs n }

/-- Caller-side mutation of a nested field of a snapshot record object,
e.g. `snap["found_slots"].append(x)`: mutates the list object referenced
by the record at `a`. -/
def appendSlotAt (s : EngineB) (a : Nat) (x : Slot) : EngineB :=
  match s.recs a with
  | none => s
  | some r =>
    { s with lists := fun n =>
        if n = r.found_slots then (s.lists n).map (fun l => l ++ [x]) else s.lists n }

/-- The slots of the registry's own record for `id`, read through the
stored record object — the engine-owned state a `list()` caller must not
be able to reach. -/
def engineSlots (s : EngineB) (id : String) : Option (List Slot) :=
  match s.monitors.lookup id with
  | none => none
  | some a =>
    match s.recs a with
    | none => none
    | some r => s.lists r.found_slots

/-- Registry well-formedness: every registered address is allocated below
`fresh` and holds a record whose `id` field is its key. -/
def wfB (s : EngineB) : Prop :=
  ∀ p ∈ s.monitors, p.2 < s.fresh ∧ (s.recs p.2).map RecObj.id = some p.1

/-- One effect of the poll loop or an in-flight checker on the shared
state (monitor_engine.py lines 21-43): the loop reads `_monitors` under
the lock but never inserts into or deletes from it; it only mutates the
record objects it already holds (never their `id` field — no statement in
`_loop` or `run_check` assigns `item["id"]`) and may allocate new list
objects (e.g. `item["found_slots"] = []`). -/
def ChkStep (s s2 : EngineB) : Prop :=
  s2.monitors = s.monitors ∧
  s.fresh ≤ s2.fresh ∧
  (∀ a r, s.recs a = some r → ∃ r2, s2.recs a = some r2 ∧ r2.id = r.id)

/-!
Interleaving model of shutdown (monitor_engine.py lines 21-43 and 63-65).

The worker runs `_loop`: test `self._stop.is_set()` at the top of the
`while`, snapshot the registry, visit each snapshot record in order
(invoking the checker on the due active ones), then `self._stop.wait(1.0)`
and return to the top.  The loop body never tests the stop flag between
records.  `stop()` runs on the foreground thread: `self._stop.set()` then
`self._thread.join(timeout=3)`, which returns either because the worker
finished or because the 3-second timeout elapsed while the worker was
still running (a checker call may block far longer — the HTTP client uses
a 12-second request timeout with up to three retries).

Checker invocations are recorded in `checksLog` by record id; the before
and after states of the record itself are irrelevant to shutdown and are
elided.
-/

/-- The worker's control point in `_loop`: at the `while` test, scanning
a snapshot (with the captured `now` and the records not yet visited),
inside `self._stop.wait(1.0)`, or exited. -/
inductive WPC where
  | top
  | scanning (now : Int) (pending : List Item)
  | waiting
  | done
deriving DecidableEq

/-- A joint state of the worker and of the foreground `stop()` call:
the stop event, whether `stop()` has returned, the worker's control
point, and the log of checker invocations (record ids, in order). -/
structure Sys where
  stopFlag : Bool
  stopReturned : Bool
  wpc : WPC
  checksLog : List String
deriving DecidableEq

/-- Whether one scan visit invokes the checker on a record — the guard
taken by `scanItem` (monitor_engine.py lines 27-36), independent of what
the checker then does. -/
def invokedFlag (now : Int) (item : Item) : Bool :=
  (scanItem (fun i => Except.ok i) now item).2

/-- One atomic transition of the shutdown interleaving.  `items` is the
registry snapshot a scan picks up (registry mutations are orthogonal to
shutdown and kept fixed here). -/
inductive Step (items : List Item) : Sys → Sys → Prop where
  | beginScan (ret : Bool) (log : List String) (now : Int) :
      -- while test with the flag clear, then `items = list(...values())`
      Step items ⟨false, ret, WPC.top, log⟩ ⟨false, ret, WPC.scanning now items, log⟩
  | checkHead (fl ret : Bool) (log : List String) (now : Int) (it : Item)
      (rest : List Item) :
      -- visit the next snapshot record; the flag is NOT consulted here
      Step items ⟨fl, ret, WPC.scanning now (it :: rest), log⟩
        ⟨fl, ret, WPC.scanning now rest,
          if invokedFlag now it then log ++ [it.id] else log⟩
  | endScan (fl ret : Bool) (log : List String) (now : Int) :
      -- the for loop is exhausted; enter `self._stop.wait(1.0)`
      Step items ⟨fl, ret, WPC.scanning now [], log⟩ ⟨fl, ret, WPC.waiting, log⟩
  | tickWake (fl ret : Bool) (log : List String) :
      -- `wait(1.0)` returns (timeout, or immediately once the flag is set)
      Step items ⟨fl, ret, WPC.waiting, log⟩ ⟨fl, ret, WPC.top, log⟩
  | exitLoop (ret : Bool) (log : List String) :
      -- while test with the flag set: the loop exits
      Step items ⟨true, ret, WPC.top, log⟩ ⟨true, ret, WPC.done, log⟩
  | callStop (ret : Bool) (w : WPC) (log : List String) :
      -- stop() line 64: `self._stop.set()`
      Step items ⟨false, ret, w, log⟩ ⟨true, ret, w, log⟩
  | joinDone (w : WPC) (log : List String) :
      -- stop() line 65: `join(timeout=3)` returns — because the worker
      -- exited, or because 3 seconds elapsed with the worker still busy
      Step items ⟨true, false, w, log⟩ ⟨true, true, w, log⟩

/-- Number of records not yet visited in an in-progress scan (an upper
bound on the checks the worker can still perform before re-testing the
stop flag). -/
def wpcPending : WPC → Nat
  | WPC.scanning _ l => l.length
  | _ => 0

/-!
Concrete values used in witnesses and counterexamples.
-/

/-- A representative monitor record as created by the app form
(app.py lines 315-335). -/
def baseItem : Item where
  id := "A"
  venue_id := "1234"
  venue_name := "Casa Paco"
  url := "https://resy.com/cities/toronto-on/venues/casa-paco"
  party_size := 2
  start_date := "2025-09-01"
  end_date := "2025-09-03"
  times_24 := ["19:00", "19:30", "20:00"]
  times_12 := ["7:00 PM", "7:30 PM", "8:00 PM"]
  last_checked := none
  status := "polling"
  status_msg := "Monitoring…"
  found_slots := []
  error := none
  created_at := 0
  only_one_webhook := true
  webhook_sent := false
  stop_on_match := true
  active := true

/-- A checker that always raises, used as a concrete witness input. -/
def failChecker : Item → Except (String × Item) Item :=
  fun i => Except.error ("boom", i)

/-- A raw slot at one of `baseItem`'s target times. -/
def slot1900 : RawSlot := ⟨"19:00", "Dining Room", "", "img"⟩

/-- A monitor with `stop_on_match = true` but `only_one_webhook = false`
(the app form allows unchecking the single-webhook box, app.py line 297). -/
def c6Item : Item := { baseItem with only_one_webhook := false }

/-- An environment where the calendar shows one available date and `find`
returns a slot at a target time, so the check finds a match. -/
def c6Env : CheckEnv where
  calendar := CallOutcome.ok [⟨"2025-09-03", "available"⟩]
  find := fun _ => CallOutcome.ok [slot1900]
  now := 1000

/-- Environment of a check whose calendar call raises `ResyClientError`. -/
def errEnv : CheckEnv where
  calendar := CallOutcome.resyErr ⟨"Upstream error 500", some 500, some "server down", none⟩
  find := fun _ => CallOutcome.ok []
  now := 500

/-- A concrete matched slot. -/
def slotX : Slot := ⟨"2025-09-03", "19:00", "Dining Room", "", "img"⟩

/-- A record whose previous check found a slot. -/
def foundItem : Item :=
  { baseItem with found_slots := [slotX], status := "found", webhook_sent := true }

/-- A registry record object whose `found_slots` list object lives at
address 0 and currently holds no slots. -/
def c3Rec : RecObj :=
  ⟨"A", true, "none", "Nothing available for selected times", none, some 100, 0⟩

/-- An engine state with one registered monitor `"A"` (record object at
address 1, its `found_slots` list object at address 0). -/
def c3State : EngineB where
  monitors := [("A", 1)]
  recs := fun n => if n = 1 then some c3Rec else none
  lists := fun n => if n = 0 then some [] else none
  fresh := 2

/-- A stored record object for monitor `"A"`. -/
def recA : RecObj := ⟨"A", true, "polling", "Monitoring…", none, none, 0⟩

/-- A stored record object for monitor `"B"`. -/
def recB : RecObj := ⟨"B", true, "polling", "Monitoring…", none, none, 1⟩

/-- An engine state with two registered monitors `"A"` and `"B"`. -/
def regState : EngineB where
  monitors := [("A", 2), ("B", 3)]
  recs := fun n => if n = 2 then some recA else if n = 3 then some recB else none
  lists := fun n => if n = 0 then some [] else if n = 1 then some [] else none
  fresh := 4

/-- A second monitor record for the shutdown scenario. -/
def c5ItemB : Item := { baseItem with id := "B" }

/-- The registry snapshot of the shutdown scenario: two due active
monitors. -/
def c5Items : List Item := [baseItem, c5ItemB]

/-- Shutdown scenario, initial state: worker at the `while` test, stop not
yet requested. -/
def c5s0 : Sys := ⟨false, false, WPC.top, []⟩

/-- Shutdown scenario: a scan has begun (`now = 1000`), both records
pending. -/
def c5s1 : Sys := ⟨false, false, WPC.scanning 1000 c5Items, []⟩

/-- Shutdown scenario: `stop()` has set the flag mid-scan. -/
def c5s2 : Sys := ⟨true, false, WPC.scanning 1000 c5Items, []⟩

/-- Shutdown scenario: the 3-second `join` timed out while the worker was
still mid-scan, so `stop()` has returned. -/
def c5s3 : Sys := ⟨true, true, WPC.scanning 1000 c5Items, []⟩

/-- Shutdown scenario: the worker has since checked record `"A"`. -/
def c5s4 : Sys := ⟨true, true, WPC.scanning 1000 [c5ItemB], ["A"]⟩

/-- Shutdown scenario: the worker has also checked record `"B"` — two
checker invocations after `stop()` returned. -/
def c5s5 : Sys := ⟨true, true, WPC.scanning 1000 [], ["A", "B"]⟩

/-!
Theorems.
-/

/-- The second component of `scanItem` — whether the checker was invoked —
is exactly the conjunction of the `active` guard and the due test,
independent of the checker. -/
theorem scanItem_snd (checker : Item → Except (String × Item) Item)
    (now : Int) (item : Item) :
    (scanItem checker now item).2 = (item.active && isDue now item) := by
  unfold scanItem
  cases ha : item.active
  · simp [ha]
  · cases hd : isDue now item
    · simp [ha, hd]
    · cases h : checker item with
      | ok item2 => simp [ha, hd, h]
      | error p =>
        obtain ⟨e, partState⟩ := p
        simp [ha, hd, h]

/-- C1: on a poll-loop scan the checker is invoked on a record iff the
record is active and due: an inactive record is skipped however overdue it
is, an active record with `last_checked` unset is always due (under any
wall clock at least `POLL_INTERVAL_SEC` past the epoch, as `time.time()`
always is), and a record checked at time `T` is not due at `T + 60` and is
due at `T + 121` with the 120-second interval. -/
theorem c1_scan_invokes_iff_active_and_due
    (checker : Item → Except (String × Item) Item) (now T : Int) (item : Item)
    (hclock : POLL_INTERVAL_SEC ≤ now) :
    ((scanItem checker now item).2 = (item.active && isDue now item)) ∧
    (item.active = false → (scanItem checker now item).2 = false) ∧
    (item.last_checked = none → item.active = true →
      (scanItem checker now item).2 = true) ∧
    ((scanItem checker (T + 60)
        { item with active := true, last_checked := some T }).2 = false) ∧
    ((scanItem checker (T + 121)
        { item with active := true, last_checked := some T }).2 = true) := by
  refine ⟨scanItem_snd checker now item, ?_, ?_, ?_, ?_⟩
  · intro ha
    rw [scanItem_snd, ha]
    rfl
  · intro hlc ha
    rw [scanItem_snd, ha]
    simp only [Bool.true_and, isDue, lastTs, hlc, decide_eq_true_eq]
    omega
  · rw [scanItem_snd]
    simp only [isDue, lastTs, POLL_INTERVAL_SEC, Bool.and_eq_false_iff,
      decide_eq_false_iff_not]
    right
    omega
  · rw [scanItem_snd]
    simp only [isDue, lastTs, POLL_INTERVAL_SEC, Bool.and_eq_true,
      decide_eq_true_eq]
    constructor
    · trivial
    · omega

/-- Witness for C1 at a concrete checker, clock and record. -/
theorem c1_scan_invokes_iff_active_and_due_witness :
    (POLL_INTERVAL_SEC ≤ (200 : Int)) ∧
    (((scanItem (fun i => Except.ok i) 200 baseItem).2 =
        (baseItem.active && isDue 200 baseItem)) ∧
     (baseItem.active = false →
        (scanItem (fun i => Except.ok i) 200 baseItem).2 = false) ∧
     (baseItem.last_checked = none → baseItem.active = true →
        (scanItem (fun i => Except.ok i) 200 baseItem).2 = true) ∧
     ((scanItem (fun i => Except.ok i) (300 + 60)
         { baseItem with active := true, last_checked := some 300 }).2 = false) ∧
     ((scanItem (fun i => Except.ok i) (300 + 121)
         { baseItem with active := true, last_checked := some 300 }).2 = true)) :=
  ⟨by decide,
   c1_scan_invokes_iff_active_and_due (fun i => Except.ok i) 200 300 baseItem
     (by decide)⟩

/-- C2: when the checker raises on a due active record, the poll loop's
failure boundary replaces that record's state by exactly the four-field
error update and every other record of the scan is processed exactly as it
would be on its own: the scan of `xs ++ [itemF] ++ ys` is the scan of `xs`,
the error update, and the scan of `ys`; the scan output covers every
record of the snapshot (the loop never terminates early); and whether a
record is checked does not depend on the checker at all. -/
theorem c2_failure_boundary_isolates
    (checker : Item → Except (String × Item) Item) (now : Int)
    (xs ys : List Item) (itemF pre : Item) (e : String)
    (hact : itemF.active = true) (hdue : isDue now itemF = true)
    (hfail : checker itemF = Except.error (e, pre)) :
    (scanList checker now (xs ++ itemF :: ys) =
      scanList checker now xs ++
        loopErrorUpdate pre e now :: scanList checker now ys) ∧
    (loopErrorUpdate pre e now =
      { pre with status := "error", status_msg := "Background error",
                 error := some e, last_checked := some now }) ∧
    ((scanList checker now (xs ++ itemF :: ys)).length =
      (xs ++ itemF :: ys).length) ∧
    (∀ checker2 b, (scanItem checker2 now b).2 = (scanItem checker now b).2) := by
  refine ⟨?_, rfl, ?_, ?_⟩
  · unfold scanList
    rw [List.map_append, List.map_cons]
    congr 1
    unfold scanItem
    simp [hact, hdue, hfail]
  · unfold scanList
    rw [List.length_map]
  · intro checker2 b
    rw [scanItem_snd, scanItem_snd]


/-- Witness for C2: a concrete two-record scan where the checker raises
on the first record and the second is still checked. -/
theorem c2_failure_boundary_isolates_witness :
    (baseItem.active = true ∧ isDue 200 baseItem = true ∧
      failChecker baseItem = Except.error ("boom", baseItem)) ∧
    ((scanList failChecker 200
        ([] ++ baseItem :: [{ baseItem with id := "B" }]) =
      scanList failChecker 200 [] ++
        loopErrorUpdate baseItem "boom" 200 ::
          scanList failChecker 200 [{ baseItem with id := "B" }]) ∧
     (loopErrorUpdate baseItem "boom" 200 =
      { baseItem with status := "error", status_msg := "Background error",
                      error := some "boom", last_checked := some 200 }) ∧
     ((scanList failChecker 200
        ([] ++ baseItem :: [{ baseItem with id := "B" }])).length =
       ([] ++ baseItem :: [{ baseItem with id := "B" }]).length) ∧
     (∀ checker2 b, (scanItem checker2 200 b).2 =
        (scanItem failChecker 200 b).2)) :=
  ⟨⟨rfl, by decide, rfl⟩,
   c2_failure_boundary_isolates failChecker 200
     [] [{ baseItem with id := "B" }] baseItem baseItem "boom"
     rfl (by decide) rfl⟩

/-- C4: `run_check` always sets `last_checked` to the current time before
returning, and leaves the record in exactly one of the three result
states: `found` with non-empty `found_slots` and the notification
dispatched (in this call, or earlier in the monitor's lifetime as recorded
by `webhook_sent`), `none` with empty `found_slots`, or `error` with a
populated `error` field. -/
theorem c4_checker_contract (env : CheckEnv) (item : Item) :
    ((runCheck env item).item.last_checked = some env.now) ∧
    ((runCheck env item).item.status = "found" ∨
      (runCheck env item).item.status = "none" ∨
      (runCheck env item).item.status = "error") ∧
    ((runCheck env item).item.status = "found" →
      (runCheck env item).item.found_slots ≠ [] ∧
      ((runCheck env item).sent = 1 ∨ item.webhook_sent = true)) ∧
    ((runCheck env item).item.status = "none" →
      (runCheck env item).item.found_slots = []) ∧
    ((runCheck env item).item.status = "error" →
      (runCheck env item).item.error ≠ none) := by
  unfold runCheck
  cases hc : env.calendar with
  | resyErr e => simp [runCheckError]
  | exn m => simp [runCheckError]
  | ok sched =>
    dsimp only
    split
    · simp [runCheckNone]
    · split
      · simp [runCheckError]
      · rename_i foundMatches hmatch
        split
        · simp [runCheckNone]
        · rename_i hne
          rw [List.isEmpty_iff] at hne
          split
          · rename_i hskip
            have hskip2 : item.only_one_webhook = true ∧ item.webhook_sent = true := by
              simpa using hskip
            simp [runCheckFound, hne, hskip2.2]
          · split
            · simp [runCheckFound, hne]
            · simp [runCheckError]

/-- Witness for C4 at a concrete found-case environment and record. -/
theorem c4_checker_contract_witness :
    ((runCheck c6Env baseItem).item.last_checked = some c6Env.now) ∧
    ((runCheck c6Env baseItem).item.status = "found" ∨
      (runCheck c6Env baseItem).item.status = "none" ∨
      (runCheck c6Env baseItem).item.status = "error") ∧
    ((runCheck c6Env baseItem).item.status = "found" →
      (runCheck c6Env baseItem).item.found_slots ≠ [] ∧
      ((runCheck c6Env baseItem).sent = 1 ∨ baseItem.webhook_sent = true)) ∧
    ((runCheck c6Env baseItem).item.status = "none" →
      (runCheck c6Env baseItem).item.found_slots = []) ∧
    ((runCheck c6Env baseItem).item.status = "error" →
      (runCheck c6Env baseItem).item.error ≠ none) :=
  c4_checker_contract c6Env baseItem

/-- Case shape of `run_check`: every invocation ends in one of the
`except` blocks (a `runCheckError` update), a no-match `runCheckNone`
update, or a `runCheckFound` update over a non-empty match list — the
latter only on the single-webhook paths, recording the guard values of
`only_one_webhook` and `webhook_sent` there. -/
theorem runCheck_shape (env : CheckEnv) (item : Item) :
    (∃ msg err, runCheck env item = ⟨runCheckError item msg err env.now, 0⟩) ∨
    (∃ msg, runCheck env item = ⟨runCheckNone item msg env.now, 0⟩) ∨
    (∃ ms, ms ≠ [] ∧
      ((item.only_one_webhook = true ∧ item.webhook_sent = true ∧
          runCheck env item = ⟨runCheckFound item ms env.now, 0⟩) ∨
       (item.only_one_webhook = true ∧ item.webhook_sent = false ∧
          runCheck env item =
            ⟨runCheckFound { item with webhook_sent := true } ms env.now, 1⟩))) := by
  unfold runCheck
  cases env.calendar with
  | resyErr e => exact Or.inl ⟨_, _, rfl⟩
  | exn m => exact Or.inl ⟨_, _, rfl⟩
  | ok sched =>
    dsimp only
    split
    · exact Or.inr (Or.inl ⟨_, rfl⟩)
    · split
      · exact Or.inl ⟨_, _, rfl⟩
      · rename_i foundMatches hm
        split
        · exact Or.inr (Or.inl ⟨_, rfl⟩)
        · rename_i hne
          rw [List.isEmpty_iff] at hne
          split
          · rename_i hskip
            have hg : item.only_one_webhook = true ∧ item.webhook_sent = true := by
              simpa using hskip
            exact Or.inr (Or.inr ⟨foundMatches, hne, Or.inl ⟨hg.1, hg.2, rfl⟩⟩)
          · rename_i hskip
            split
            · rename_i hoo
              have hws : item.webhook_sent = false := by
                cases hw : item.webhook_sent
                · rfl
                · exact absurd (by simp [hoo, hw]) hskip
              exact Or.inr (Or.inr ⟨foundMatches, hne, Or.inr ⟨hoo, hws, rfl⟩⟩)
            · exact Or.inl ⟨_, _, rfl⟩

/-- Every error outcome of `run_check` is one of the `except` blocks of
app.py lines 205-214, i.e. a four-field `runCheckError` update of the
input record. -/
theorem runCheck_error_shape (env : CheckEnv) (item : Item)
    (herr : (runCheck env item).item.status = "error") :
    ∃ msg err, (runCheck env item).item = runCheckError item msg err env.now := by
  rcases runCheck_shape env item with ⟨msg, err, h⟩ | ⟨msg, h⟩ |
    ⟨ms, hne, ⟨_, _, h⟩ | ⟨_, _, h⟩⟩
  · exact ⟨msg, err, by rw [h]⟩
  · rw [h] at herr
    simp [runCheckNone] at herr
  · rw [h] at herr
    simp [runCheckFound] at herr
  · rw [h] at herr
    simp [runCheckFound] at herr

/-- C10: on every error outcome — the checker's own `except` blocks and
the poll loop's failure boundary — only `status`, `status_msg`, `error`
and `last_checked` are assigned; every other field keeps its prior value,
in particular `found_slots` is not cleared, so a record whose previous
check found slots can show `status = "error"` together with the earlier
non-empty `found_slots`. -/
theorem c10_error_outcome_frame (env : CheckEnv) (item pre : Item)
    (e : String) (now : Int)
    (herr : (runCheck env item).item.status = "error") :
    ((runCheck env item).item =
      { item with
          status := (runCheck env item).item.status,
          status_msg := (runCheck env item).item.status_msg,
          error := (runCheck env item).item.error,
          last_checked := (runCheck env item).item.last_checked }) ∧
    ((runCheck env item).item.found_slots = item.found_slots) ∧
    (loopErrorUpdate pre e now =
      { pre with status := "error", status_msg := "Background error",
                 error := some e, last_checked := some now }) ∧
    (item.found_slots ≠ [] → (runCheck env item).item.found_slots ≠ []) := by
  obtain ⟨msg, err, hshape⟩ := runCheck_error_shape env item herr
  rw [hshape]
  refine ⟨?_, rfl, rfl, fun h => h⟩
  simp [runCheckError]


/-- C6 (failing input): for a monitor with `stop_on_match = true` and
`only_one_webhook = false`, a check that finds a matching slot does NOT
set `active` to false: the per-match send loop at app.py line 188 calls
`sendWebhook` without its seventh argument `image` (compare lines 178 and
180, which pass it), so `TypeError` is raised before line 196, the
generic handler records an error outcome, `active` stays true, and the
next scan 120 seconds later re-invokes the checker.  With
`only_one_webhook = true` the same environment reaches line 196 and the
monitor is deactivated as the spec describes. -/
theorem c6_stop_on_match_failing_input :
    c6Item.stop_on_match = true ∧
    c6Item.active = true ∧
    (runCheck c6Env c6Item).item.status = "error" ∧
    (runCheck c6Env c6Item).item.status_msg = "Unexpected error" ∧
    (runCheck c6Env c6Item).item.error = some sendWebhookMissingImageMsg ∧
    (runCheck c6Env c6Item).item.active = true ∧
    (runCheck c6Env c6Item).sent = 0 ∧
    ((scanItem (fun i => Except.ok (runCheck c6Env i).item) 1120
        (runCheck c6Env c6Item).item).2 = true) ∧
    (runCheck c6Env baseItem).item.status = "found" ∧
    (runCheck c6Env baseItem).item.active = false := by
  decide

/-- No branch of `run_check` assigns `only_one_webhook`. -/
theorem runCheck_preserves_only_one (env : CheckEnv) (item : Item) :
    (runCheck env item).item.only_one_webhook = item.only_one_webhook := by
  rcases runCheck_shape env item with ⟨m, e, h⟩ | ⟨m, h⟩ |
    ⟨ms, hne, ⟨_, _, h⟩ | ⟨_, _, h⟩⟩ <;>
    rw [h] <;> simp [runCheckError, runCheckNone, runCheckFound]

/-- One `run_check` invocation either dispatches no webhook and leaves
`webhook_sent` unchanged, or dispatches exactly one webhook while flipping
`webhook_sent` from false to true. -/
theorem runCheck_send_cases (env : CheckEnv) (item : Item) :
    ((runCheck env item).sent = 0 ∧
      (runCheck env item).item.webhook_sent = item.webhook_sent) ∨
    ((runCheck env item).sent = 1 ∧ item.webhook_sent = false ∧
      (runCheck env item).item.webhook_sent = true) := by
  rcases runCheck_shape env item with ⟨m, e, h⟩ | ⟨m, h⟩ |
    ⟨ms, hne, ⟨hoo, hws, h⟩ | ⟨hoo, hws, h⟩⟩
  · left; rw [h]; simp [runCheckError]
  · left; rw [h]; simp [runCheckNone]
  · left; rw [h]; simp [runCheckFound]
  · right; rw [h]; simp [runCheckFound, hws]

/-- Once `webhook_sent` is true, no later sequence of checks dispatches
another webhook. -/
theorem lifetimeSends_zero_of_sent (envs : List CheckEnv) :
    ∀ item : Item, item.webhook_sent = true → lifetimeSends envs item = 0 := by
  induction envs with
  | nil => intro item _; rfl
  | cons e es ih =>
    intro item h
    rcases runCheck_send_cases e item with ⟨h0, hp⟩ | ⟨_, hf, _⟩
    · simp only [lifetimeSends, h0, Nat.zero_add]
      exact ih _ (by rw [hp, h])
    · rw [hf] at h
      exact absurd h (by simp)

/-- Over any sequence of checks, at most one webhook is dispatched. -/
theorem lifetimeSends_le_one (envs : List CheckEnv) :
    ∀ item : Item, lifetimeSends envs item ≤ 1 := by
  induction envs with
  | nil => intro item; simp [lifetimeSends]
  | cons e es ih =>
    intro item
    rcases runCheck_send_cases e item with ⟨h0, _⟩ | ⟨h1, _, hpost⟩
    · simp only [lifetimeSends, h0, Nat.zero_add]
      exact ih _
    · simp only [lifetimeSends, h1]
      have hz := lifetimeSends_zero_of_sent es _ hpost
      omega

/-- C7: for a monitor with `only_one_webhook` set, a webhook is dispatched
at most once over the monitor's lifetime: any sequence of checker
invocations dispatches at most one webhook, once `webhook_sent` is true no
invocation dispatches again or resets the flag, the flag itself is never
cleared (`only_one_webhook` is preserved too), and a dispatch happens in
an invocation exactly when it flips `webhook_sent` from false to true. -/
theorem c7_single_webhook (item : Item) (envs : List CheckEnv) (env : CheckEnv)
    (hoo : item.only_one_webhook = true) :
    (lifetimeSends envs item ≤ 1) ∧
    (item.webhook_sent = true →
      (runCheck env item).sent = 0 ∧
      (runCheck env item).item.webhook_sent = true) ∧
    ((runCheck env item).item.only_one_webhook = item.only_one_webhook) ∧
    ((runCheck env item).sent = 1 ↔
      item.webhook_sent = false ∧
      (runCheck env item).item.webhook_sent = true) := by
  refine ⟨lifetimeSends_le_one envs item, ?_, runCheck_preserves_only_one env item, ?_, ?_⟩
  · intro hs
    rcases runCheck_send_cases env item with ⟨h0, hp⟩ | ⟨_, hf, _⟩
    · exact ⟨h0, by rw [hp, hs]⟩
    · rw [hf] at hs
      exact absurd hs (by simp)
  · intro h1
    rcases runCheck_send_cases env item with ⟨h0, _⟩ | ⟨_, hf, hpost⟩
    · rw [h0] at h1
      exact absurd h1 (by simp)
    · exact ⟨hf, hpost⟩
  · rintro ⟨hpre, hpost⟩
    rcases runCheck_send_cases env item with ⟨_, hp⟩ | ⟨h1, _, _⟩
    · rw [hpost, hpre] at hp
      exact absurd hp (by simp)
    · exact h1

/-- Witness for C7 at a concrete monitor and a two-check lifetime in
which the first check finds a match and dispatches the single webhook. -/
theorem c7_single_webhook_witness :
    (baseItem.only_one_webhook = true) ∧
    ((lifetimeSends [c6Env, c6Env] baseItem ≤ 1) ∧
     (baseItem.webhook_sent = true →
       (runCheck c6Env baseItem).sent = 0 ∧
       (runCheck c6Env baseItem).item.webhook_sent = true) ∧
     ((runCheck c6Env baseItem).item.only_one_webhook =
        baseItem.only_one_webhook) ∧
     ((runCheck c6Env baseItem).sent = 1 ↔
       baseItem.webhook_sent = false ∧
       (runCheck c6Env baseItem).item.webhook_sent = true)) :=
  ⟨rfl, c7_single_webhook baseItem [c6Env, c6Env] c6Env rfl⟩


/-- Witness for C10: a record with previously found slots hits an API
error; only the four error fields change and `found_slots` survives. -/
theorem c10_error_outcome_frame_witness :
    ((runCheck errEnv foundItem).item.status = "error") ∧
    (((runCheck errEnv foundItem).item =
      { foundItem with
          status := (runCheck errEnv foundItem).item.status,
          status_msg := (runCheck errEnv foundItem).item.status_msg,
          error := (runCheck errEnv foundItem).item.error,
          last_checked := (runCheck errEnv foundItem).item.last_checked }) ∧
     ((runCheck errEnv foundItem).item.found_slots = foundItem.found_slots) ∧
     (loopErrorUpdate baseItem "boom" 200 =
      { baseItem with status := "error", status_msg := "Background error",
                      error := some "boom", last_checked := some 200 }) ∧
     (foundItem.found_slots ≠ [] →
        (runCheck errEnv foundItem).item.found_slots ≠ [])) :=
  ⟨by decide, c10_error_outcome_frame errEnv foundItem baseItem "boom" 200 (by decide)⟩


/-- Filtering out a key twice equals filtering once. -/
theorem filter_ne_idem (l : List (String × Nat)) (id : String) :
    (l.filter (fun p => p.1 != id)).filter (fun p => p.1 != id) =
      l.filter (fun p => p.1 != id) := by
  induction l with
  | nil => rfl
  | cons h t ih =>
    cases hb : (h.1 != id)
    · simp [List.filter_cons, hb, ih]
    · simp [List.filter_cons, hb, ih]

/-- After filtering out a key, looking it up yields nothing. -/
theorem lookup_filter_ne (l : List (String × Nat)) (id : String) :
    (l.filter (fun p => p.1 != id)).lookup id = none := by
  induction l with
  | nil => rfl
  | cons h t ih =>
    obtain ⟨k, v⟩ := h
    by_cases hk : k = id
    · have hb : ((k, v).1 != id) = false := by simp [hk]
      simp [List.filter_cons, hb, ih]
    · have hb : ((k, v).1 != id) = true := by simp [hk]
      have hbeq : (id == k) = false := by
        simp only [beq_eq_false_iff_ne, ne_eq]
        exact fun hc => hk hc.symm
      rw [List.filter_cons, hb, if_pos rfl, List.lookup_cons, hbeq]
      exact ih

/-- A list in which a key does not occur is unchanged by filtering that
key out. -/
theorem filter_ne_of_lookup_none (l : List (String × Nat)) (id : String)
    (h : l.lookup id = none) : l.filter (fun p => p.1 != id) = l := by
  induction l with
  | nil => rfl
  | cons hd t ih =>
    obtain ⟨k, v⟩ := hd
    rw [List.lookup_cons] at h
    cases hq : (id == k)
    · simp only [hq] at h
      have hne : id ≠ k := by
        intro hc
        rw [hc] at hq
        simp at hq
      have hb : ((k, v).1 != id) = true := by
        simp only [bne_iff_ne, ne_eq]
        intro hc
        exact hne hc.symm
      rw [List.filter_cons, hb, if_pos rfl, ih h]
    · rw [hq] at h
      simp at h

/-- A successful lookup locates a member of the list. -/
theorem lookup_mem (l : List (String × Nat)) (k : String) (a : Nat)
    (h : l.lookup k = some a) : (k, a) ∈ l := by
  induction l with
  | nil => simp at h
  | cons hd t ih =>
    obtain ⟨k0, v0⟩ := hd
    rw [List.lookup_cons] at h
    cases hq : (k == k0)
    · rw [hq] at h
      exact List.mem_cons_of_mem _ (ih h)
    · rw [hq] at h
      have hk : k = k0 := eq_of_beq hq
      simp only [Option.some.injEq] at h
      rw [hk, ← h]
      exact List.mem_cons_self _ _

/-- Evaluation of `set_active` when the id is registered. -/
theorem set_activeB_eq_some (s : EngineB) (id : String) (b : Bool) (a : Nat)
    (h : s.monitors.lookup id = some a) :
    set_activeB s id b = { s with recs := (fun n =>
      if n = a then (s.recs n).map (fun r => { r with active := b })
      else s.recs n) } := by
  unfold set_activeB
  rw [h]

/-- C8: `remove(id)` deletes the record if present (the key cannot be
looked up afterwards) and is a silent no-op when the id is absent;
`set_active(id, flag)` assigns the `active` field when the record exists
and is a no-op otherwise; and both operations are idempotent — running
either twice leaves exactly the state of running it once. -/
theorem c8_registry_idempotent (s : EngineB) (id : String) (b : Bool) :
    (removeB (removeB s id) id = removeB s id) ∧
    (set_activeB (set_activeB s id b) id b = set_activeB s id b) ∧
    ((removeB s id).monitors.lookup id = none) ∧
    (s.monitors.lookup id = none →
      removeB s id = s ∧ set_activeB s id b = s) := by
  refine ⟨?_, ?_, lookup_filter_ne s.monitors id, ?_⟩
  · apply EngineB.ext
    · exact filter_ne_idem s.monitors id
    · rfl
    · rfl
    · rfl
  · cases hl : s.monitors.lookup id with
    | none => simp [set_activeB, hl]
    | some a =>
      have h1 := set_activeB_eq_some s id b a hl
      have hl2 : (set_activeB s id b).monitors.lookup id = some a := by
        rw [h1]
        exact hl
      have h2 := set_activeB_eq_some (set_activeB s id b) id b a hl2
      rw [h2, h1]
      apply EngineB.ext
      · rfl
      · funext n
        by_cases hn : n = a
        · subst hn
          simp only [if_pos rfl]
          cases hsr : s.recs n with
          | none => rfl
          | some r => rfl
        · simp only [if_neg hn]
      · rfl
      · rfl
  · intro habs
    constructor
    · apply EngineB.ext
      · exact filter_ne_of_lookup_none s.monitors id habs
      · rfl
      · rfl
      · rfl
    · simp [set_activeB, habs]

/-- Witness for C8: the operations applied to a concrete two-monitor
registry, at an absent id (exercising the no-op branch) and at a present
id (exercising the mutation branch). -/
theorem c8_registry_idempotent_witness :
    (regState.monitors.lookup "Z" = none) ∧
    (removeB (removeB regState "Z") "Z" = removeB regState "Z") ∧
    (set_activeB (set_activeB regState "Z" true) "Z" true =
      set_activeB regState "Z" true) ∧
    ((removeB regState "Z").monitors.lookup "Z" = none) ∧
    (removeB regState "Z" = regState ∧ set_activeB regState "Z" true = regState) ∧
    (removeB (removeB regState "A") "A" = removeB regState "A") ∧
    (set_activeB (set_activeB regState "A" false) "A" false =
      set_activeB regState "A" false) ∧
    ((removeB regState "A").monitors.lookup "A" = none) := by
  have hz := c8_registry_idempotent regState "Z" true
  have ha := c8_registry_idempotent regState "A" false
  exact ⟨by decide, hz.1, hz.2.1, hz.2.2.1, hz.2.2.2 (by decide),
    ha.1, ha.2.1, ha.2.2.1⟩


/-- `copyRecs` does not touch the registry map, the list store, or any
address already allocated, and only grows the allocation bound. -/
theorem copyRecs_state (ms : List (String × Nat)) :
    ∀ s : EngineB,
      (copyRecs ms s).1.monitors = s.monitors ∧
      (copyRecs ms s).1.lists = s.lists ∧
      s.fresh ≤ (copyRecs ms s).1.fresh ∧
      (∀ n, n < s.fresh → (copyRecs ms s).1.recs n = s.recs n) := by
  induction ms with
  | nil => exact fun s => ⟨rfl, rfl, le_refl _, fun n _ => rfl⟩
  | cons p rest ih =>
    intro s
    cases hr : s.recs p.2 with
    | none =>
      simp only [copyRecs, hr]
      exact ih s
    | some r =>
      simp only [copyRecs, hr]
      obtain ⟨h1, h2, h3, h4⟩ :=
        ih { s with
            recs := (fun n => if n = s.fresh then some r else s.recs n),
            fresh := s.fresh + 1 }
      refine ⟨h1, h2, le_trans (Nat.le_succ _) h3, ?_⟩
      intro n hn
      rw [h4 n (Nat.lt_succ_of_lt hn)]
      simp only [if_neg (Nat.ne_of_lt hn)]

/-- Addresses returned by `copyRecs` are freshly allocated. -/
theorem copyRecs_addrs (ms : List (String × Nat)) :
    ∀ (s : EngineB) (a : Nat), a ∈ (copyRecs ms s).2 → s.fresh ≤ a := by
  induction ms with
  | nil =>
    intro s a ha
    simp [copyRecs] at ha
  | cons p rest ih =>
    intro s a ha
    cases hr : s.recs p.2 with
    | none =>
      rw [copyRecs] at ha
      simp only [hr] at ha
      exact ih s a ha
    | some r =>
      rw [copyRecs] at ha
      simp only [hr] at ha
      rcases List.mem_cons.mp ha with rfl | ha
      · exact le_refl _
      · have := ih
          { s with
              recs := (fun n => if n = s.fresh then some r else s.recs n),
              fresh := s.fresh + 1 } a ha
        exact le_trans (Nat.le_succ _) this

/-- Every record readable at an address returned by `copyRecs` is a copy
of a record stored in the input state, provided all input addresses lie
below the allocation bound. -/
theorem copyRecs_reads (ms : List (String × Nat)) :
    ∀ s : EngineB, (∀ p ∈ ms, p.2 < s.fresh) →
      ∀ (a : Nat) (r : RecObj), a ∈ (copyRecs ms s).2 →
        (copyRecs ms s).1.recs a = some r →
        ∃ p, p ∈ ms ∧ s.recs p.2 = some r := by
  induction ms with
  | nil =>
    intro s _ a r ha _
    simp [copyRecs] at ha
  | cons p rest ih =>
    intro s hb a r ha hread
    cases hr : s.recs p.2 with
    | none =>
      rw [copyRecs] at ha hread
      simp only [hr] at ha hread
      obtain ⟨q, hq, hqr⟩ := ih s (fun q hq => hb q (List.mem_cons_of_mem _ hq))
        a r ha hread
      exact ⟨q, List.mem_cons_of_mem _ hq, hqr⟩
    | some r0 =>
      rw [copyRecs] at ha hread
      simp only [hr] at ha hread
      have hb2 : ∀ q ∈ rest,
          q.2 < ({ s with
            recs := (fun n => if n = s.fresh then some r0 else s.recs n),
            fresh := s.fresh + 1 } : EngineB).fresh :=
        fun q hq => Nat.lt_succ_of_lt (hb q (List.mem_cons_of_mem _ hq))
      rcases List.mem_cons.mp ha with rfl | ha2
      · have hpres := (copyRecs_state rest
          { s with
              recs := (fun n => if n = s.fresh then some r0 else s.recs n),
              fresh := s.fresh + 1 }).2.2.2 s.fresh (Nat.lt_succ_self _)
        rw [hpres] at hread
        have hrr : r0 = r := by simpa using hread
        exact ⟨p, List.mem_cons_self _ _, by rw [hr, hrr]⟩
      · obtain ⟨q, hq, hqr⟩ := ih
          { s with
              recs := (fun n => if n = s.fresh then some r0 else s.recs n),
              fresh := s.fresh + 1 } hb2 a r ha2 hread
        have hqlt : q.2 < s.fresh := hb q (List.mem_cons_of_mem _ hq)
        simp only [if_neg (Nat.ne_of_lt hqlt)] at hqr
        exact ⟨q, List.mem_cons_of_mem _ hq, hqr⟩

/-- The registry map is unchanged by any sequence of poll-loop or checker
effects. -/
theorem chkReach_monitors {s s2 : EngineB}
    (h : Relation.ReflTransGen ChkStep s s2) : s2.monitors = s.monitors := by
  induction h with
  | refl => rfl
  | tail _ hbc ih => rw [hbc.1, ih]

/-- Well-formedness is preserved by any sequence of poll-loop or checker
effects. -/
theorem chkReach_wf {s s2 : EngineB}
    (h : Relation.ReflTransGen ChkStep s s2) (hwf : wfB s) : wfB s2 := by
  induction h with
  | refl => exact hwf
  | tail hab hbc ih =>
    intro p hp
    rw [hbc.1] at hp
    obtain ⟨hlt, hid⟩ := ih p hp
    obtain ⟨r, hr, hrid⟩ := Option.map_eq_some'.mp hid
    obtain ⟨r2, hr2, hid2⟩ := hbc.2.2 p.2 r hr
    refine ⟨lt_of_lt_of_le hlt hbc.2.1, ?_⟩
    rw [hr2]
    simp [hid2, hrid]

/-- Removal preserves well-formedness. -/
theorem wfB_removeB (s : EngineB) (id : String) (hwf : wfB s) :
    wfB (removeB s id) := by
  intro p hp
  exact hwf p (List.mem_filter.mp hp).1

/-- C9: after `remove(id)`, no later `list()` ever returns a record with
that id, whatever in-flight checker or poll-loop mutations happen to the
record objects in between: the poll loop never inserts into the registry
map, so the removed key stays absent and every snapshot record copies a
still-registered record. -/
theorem c9_removed_id_never_listed (s s2 : EngineB) (id : String)
    (a : Nat) (r : RecObj)
    (hwf : wfB s)
    (hsteps : Relation.ReflTransGen ChkStep (removeB s id) s2)
    (ha : a ∈ (listB s2).2)
    (hr : (listB s2).1.recs a = some r) :
    r.id ≠ id := by
  have hwf2 : wfB s2 := chkReach_wf hsteps (wfB_removeB s id hwf)
  have hbounds : ∀ p ∈ s2.monitors, p.2 < s2.fresh := fun p hp => (hwf2 p hp).1
  obtain ⟨p, hp, hrec⟩ := copyRecs_reads s2.monitors s2 hbounds a r ha hr
  have hid : (s2.recs p.2).map RecObj.id = some p.1 := (hwf2 p hp).2
  rw [hrec] at hid
  have hrid : r.id = p.1 := by simpa using hid
  have hmon := chkReach_monitors hsteps
  rw [hmon] at hp
  have hp2 : p ∈ s.monitors.filter (fun q => q.1 != id) := hp
  have hne := List.of_mem_filter hp2
  rw [hrid]
  simpa using hne

/-- Witness for C9: remove `"B"` from a concrete two-monitor registry,
take no further steps, and read the single snapshot copy `list()`
allocates — it is monitor `"A"`, not `"B"`. -/
theorem c9_removed_id_never_listed_witness : recA.id ≠ "B" :=
  c9_removed_id_never_listed regState (removeB regState "B") "B" 4 recA
    (by unfold wfB; decide) Relation.ReflTransGen.refl (by decide) (by decide)

/-- C3 (counterexample): `list()` copies records shallowly (`dict(v)`),
so the nested `found_slots` list object is shared between the snapshot
and the engine-owned record: appending a slot through the returned
snapshot (address 2) changes what the registry's own record for `"A"`
observes — the caller CAN mutate engine-owned state through a value
reachable from the returned sequence. -/
theorem c3_nested_mutation_counterexample :
    ((listB c3State).2 = [2]) ∧
    (engineSlots c3State "A" = some []) ∧
    (engineSlots (appendSlotAt (listB c3State).1 2 slotX) "A" = some [slotX]) ∧
    (engineSlots (appendSlotAt (listB c3State).1 2 slotX) "A" ≠
      engineSlots c3State "A") := by
  decide

/-- C3 (amended): `list()` returns fresh record copies taken from one
registry state, and mutating a TOP-LEVEL field of a returned snapshot
record leaves every engine-owned record object untouched (the snapshot
addresses are freshly allocated); only nested mutable values such as the
`found_slots` list are shared, as the counterexample shows. -/
theorem c3_snapshot_top_level_isolation (s : EngineB) (a ra : Nat)
    (k id2 v : String)
    (hwf : wfB s) (ha : a ∈ (listB s).2) (hm : (k, ra) ∈ s.monitors) :
    ((setStatusAt (listB s).1 a v).recs ra = s.recs ra) ∧
    (engineSlots (setStatusAt (listB s).1 a v) id2 = engineSlots s id2) := by
  have hge : s.fresh ≤ a := copyRecs_addrs s.monitors s a ha
  obtain ⟨hmon, hlists, _, hrecs⟩ := copyRecs_state s.monitors s
  have hra : ra < s.fresh := (hwf (k, ra) hm).1
  constructor
  · have hne : ra ≠ a := Nat.ne_of_lt (lt_of_lt_of_le hra hge)
    simp only [setStatusAt]
    rw [if_neg hne]
    exact hrecs ra hra
  · have hmon2 : (setStatusAt (listB s).1 a v).monitors = s.monitors := by
      simp only [setStatusAt]
      exact hmon
    unfold engineSlots
    rw [hmon2]
    cases hl : s.monitors.lookup id2 with
    | none => rfl
    | some addr =>
      have haddr : addr < s.fresh := (hwf (id2, addr) (lookup_mem _ _ _ hl)).1
      have hne : addr ≠ a := Nat.ne_of_lt (lt_of_lt_of_le haddr hge)
      have hrecseq : (setStatusAt (listB s).1 a v).recs addr = s.recs addr := by
        simp only [setStatusAt]
        rw [if_neg hne]
        exact hrecs addr haddr
      dsimp only
      rw [hrecseq]
      cases s.recs addr with
      | none => rfl
      | some r0 =>
        have hl2 : (setStatusAt (listB s).1 a v).lists = s.lists := by
          simp only [setStatusAt]
          exact hlists
        rw [hl2]

/-- Witness for the amended C3: mutate the `status` of the concrete
snapshot copy (address 2); the engine record at address 1 and the
engine-observed slots of monitor `"A"` are unchanged. -/
theorem c3_snapshot_top_level_isolation_witness :
    ((setStatusAt (listB c3State).1 2 "error").recs 1 = c3State.recs 1) ∧
    (engineSlots (setStatusAt (listB c3State).1 2 "error") "A" =
      engineSlots c3State "A") :=
  c3_snapshot_top_level_isolation c3State 2 1 "A" "A" "error"
    (by unfold wfB; decide) (by decide) (by decide)

/-- C5 (counterexample): a reachable execution in which a checker
invocation happens AFTER `stop()` has returned.  The worker begins a scan
of two due active monitors; `stop()` is called mid-scan and its 3-second
`join(timeout=3)` elapses while the worker is still busy (a checker call
can block far longer than 3 seconds), so `stop()` returns; the worker
then still visits and checks both records of the in-progress scan,
because the loop only consults the stop flag at the top of the `while`. -/
theorem c5_check_after_stop_returned_counterexample :
    (Relation.ReflTransGen (Step c5Items) c5s0 c5s3) ∧
    (c5s3.stopReturned = true ∧ c5s3.checksLog = []) ∧
    (Step c5Items c5s3 c5s4) ∧
    (Step c5Items c5s4 c5s5) ∧
    (c5s4.checksLog = ["A"] ∧ c5s5.checksLog = ["A", "B"]) := by
  refine ⟨?_, ⟨rfl, rfl⟩, ?_, ?_, rfl, rfl⟩
  · exact Relation.ReflTransGen.head (Step.beginScan false [] 1000)
      (Relation.ReflTransGen.head
        (Step.callStop false (WPC.scanning 1000 c5Items) [])
        (Relation.ReflTransGen.single
          (Step.joinDone (WPC.scanning 1000 c5Items) [])))
  · have e1 : (if invokedFlag 1000 baseItem then ([] : List String) ++ [baseItem.id]
        else ([] : List String)) = ["A"] := by decide
    have h := @Step.checkHead c5Items true true [] 1000 baseItem [c5ItemB]
    rw [e1] at h
    exact h
  · have e2 : (if invokedFlag 1000 c5ItemB then ["A"] ++ [c5ItemB.id]
        else ["A"]) = ["A", "B"] := by decide
    have h := @Step.checkHead c5Items true true ["A"] 1000 c5ItemB []
    rw [e2] at h
    exact h

/-- Any single step taken from a state where the stop flag is set keeps
the flag set, cannot increase the number of logged checks beyond the
records still pending in the current scan, and from the `while` test or
the exited state performs no check at all. -/
theorem step_stop_invariant {items : List Item} {s s2 : Sys}
    (h : Step items s s2) (hf : s.stopFlag = true) :
    s2.stopFlag = true ∧
    s2.checksLog.length + wpcPending s2.wpc ≤
      s.checksLog.length + wpcPending s.wpc ∧
    ((s.wpc = WPC.top ∨ s.wpc = WPC.done) →
      s2.checksLog = s.checksLog ∧ (s2.wpc = WPC.top ∨ s2.wpc = WPC.done)) := by
  cases h with
  | beginScan ret log now => simp at hf
  | callStop ret w log => simp at hf
  | checkHead fl ret log now it rest =>
    refine ⟨hf, ?_, ?_⟩
    · by_cases hi : invokedFlag now it
      · simp [wpcPending, hi]
        try omega
      · simp [wpcPending, hi]
        try omega
    · intro hw
      rcases hw with hw | hw <;> simp at hw
  | endScan fl ret log now =>
    refine ⟨hf, by simp [wpcPending], ?_⟩
    intro hw
    rcases hw with hw | hw <;> simp at hw
  | tickWake fl ret log =>
    refine ⟨hf, by simp [wpcPending], ?_⟩
    intro hw
    rcases hw with hw | hw <;> simp at hw
  | exitLoop ret log =>
    exact ⟨rfl, le_refl _, fun _ => ⟨rfl, Or.inr rfl⟩⟩
  | joinDone w log =>
    exact ⟨rfl, le_refl _, fun hw => ⟨rfl, hw⟩⟩

/-- Along any execution from a state with the stop flag set, the flag
stays set, the potential (logged checks plus pending scan records) never
increases, and from the `while` test or the exited state the log never
grows. -/
theorem reach_stop_invariant {items : List Item} {s s2 : Sys}
    (h : Relation.ReflTransGen (Step items) s s2) (hf : s.stopFlag = true) :
    s2.stopFlag = true ∧
    s2.checksLog.length + wpcPending s2.wpc ≤
      s.checksLog.length + wpcPending s.wpc ∧
    ((s.wpc = WPC.top ∨ s.wpc = WPC.done) →
      s2.checksLog = s.checksLog ∧ (s2.wpc = WPC.top ∨ s2.wpc = WPC.done)) := by
  induction h with
  | refl => exact ⟨hf, le_refl _, fun hw => ⟨rfl, hw⟩⟩
  | tail hab hbc ih =>
    obtain ⟨ihf, ihle, ihtd⟩ := ih
    obtain ⟨sf, sle, std⟩ := step_stop_invariant hbc ihf
    refine ⟨sf, le_trans sle ihle, ?_⟩
    intro hw
    obtain ⟨hlog, hwd⟩ := ihtd hw
    obtain ⟨hlog2, hwd2⟩ := std hwd
    exact ⟨hlog2.trans hlog, hwd2⟩

/-- C5 (amended): once the stop signal is set, the worker never begins a
new scan: along any subsequent execution the checker is invoked at most
once per record still pending in the scan that was in progress when the
signal was set (such checks can land after `stop()` returns when the
3-second `join` times out, as the counterexample shows); and once the
worker is at the `while` test or has exited, no checker invocation ever
occurs again. -/
theorem c5_no_checks_after_stop_observed (items : List Item) (s s2 : Sys)
    (hf : s.stopFlag = true)
    (hsteps : Relation.ReflTransGen (Step items) s s2) :
    (s2.checksLog.length ≤ s.checksLog.length + wpcPending s.wpc) ∧
    ((s.wpc = WPC.top ∨ s.wpc = WPC.done) → s2.checksLog = s.checksLog) := by
  obtain ⟨_, hle, htd⟩ := reach_stop_invariant hsteps hf
  exact ⟨le_trans (Nat.le_add_right _ _) hle, fun hw => (htd hw).1⟩

/-- Witness for the amended C5: from the `while` test with the flag set,
taking the exit step, the log stays empty. -/
theorem c5_no_checks_after_stop_observed_witness :
    ((⟨true, false, WPC.done, []⟩ : Sys).checksLog.length ≤
      (⟨true, false, WPC.top, []⟩ : Sys).checksLog.length +
        wpcPending (⟨true, false, WPC.top, []⟩ : Sys).wpc) ∧
    (((⟨true, false, WPC.top, []⟩ : Sys).wpc = WPC.top ∨
       (⟨true, false, WPC.top, []⟩ : Sys).wpc = WPC.done) →
      (⟨true, false, WPC.done, []⟩ : Sys).checksLog =
        (⟨true, false, WPC.top, []⟩ : Sys).checksLog) :=
  c5_no_checks_after_stop_observed c5Items
    ⟨true, false, WPC.top, []⟩ ⟨true, false, WPC.done, []⟩ rfl
    (Relation.ReflTransGen.single (Step.exitLoop false []))
